import Mathlib

/-!
Verification of the k6 load-testing scripts (scheduling backend).

This file shallowly embeds the load-generation scripts of the repository:
the per-endpoint HTTP helpers (`k6-scripts-v3/helpers.js`), the process-wide
configuration (`k6-scripts-v3/config.js`), the per-iteration journey bodies of
the stress test and the load test (the two unnamed script files), the k6
`setup` hook, and the report generator (`generateHtmlReport`).

Machine conventions: durations are rationals, JS objects become structures,
`null`/`undefined` become `Option`, JS truthiness of strings and numbers is
made explicit (`"" `and `0` are falsy), fallible JS control flow (`throw`)
becomes `Except`.  Every definition is translated from the source file it
names; the one exception is `percentileNR`, which models the percentile
computation of the k6 engine (not part of the repository sources) from the
specification's words.
-/

/-! ## Configuration (`k6-scripts-v3/config.js`) -/

/-- `BASE_URL` from config.js line 20 (hard-coded; the env-var comment is not
reflected in the code). -/
def BASE_URL : String := "https://molip.today/api/task"

/-- `DEFAULT_HEADERS` from config.js. -/
def DEFAULT_HEADERS : List (String × String) :=
  [("Content-Type", "application/json"), ("Accept", "application/json")]

/-- The `TIMEOUTS` object of config.js: a default timeout and a longer one
for AI-related calls. -/
structure TimeoutConfig where
  defaultT : String
  ai_related : String
deriving DecidableEq

/-- `TIMEOUTS` from config.js. -/
def TIMEOUTS : TimeoutConfig := { defaultT := "10s", ai_related := "30s" }

/-! ## HTTP requests built by the helpers (`k6-scripts-v3/helpers.js`)

Each `...Request` definition records the method, URL, headers and timeout
exactly as the corresponding helper passes them to `k6/http`. -/

structure HttpRequest where
  method : String
  url : String
  headers : List (String × String)
  timeout : String
deriving DecidableEq

/-- The header object `{...DEFAULT_HEADERS, 'Authorization': Bearer token}`
used by every authenticated helper. -/
def authHeaders (accessToken : String) : List (String × String) :=
  DEFAULT_HEADERS ++ [("Authorization", "Bearer " ++ accessToken)]

/-- Request built by `login` (POST `${BASE_URL}/token`). -/
def loginRequest : HttpRequest :=
  { method := "POST", url := BASE_URL ++ "/token",
    headers := DEFAULT_HEADERS, timeout := TIMEOUTS.defaultT }

/-- Request built by `signup` (POST `${BASE_URL}/users`). -/
def signupRequest : HttpRequest :=
  { method := "POST", url := BASE_URL ++ "/users",
    headers := DEFAULT_HEADERS, timeout := TIMEOUTS.defaultT }

/-- Request built by `logout` (DELETE `${BASE_URL}/token`). -/
def logoutRequest (accessToken : String) : HttpRequest :=
  { method := "DELETE", url := BASE_URL ++ "/token",
    headers := authHeaders accessToken, timeout := TIMEOUTS.defaultT }

/-- Request built by `getProfile` (GET `${BASE_URL}/users`). -/
def getProfileRequest (accessToken : String) : HttpRequest :=
  { method := "GET", url := BASE_URL ++ "/users",
    headers := authHeaders accessToken, timeout := TIMEOUTS.defaultT }

/-- Request built by `searchUsers`. -/
def searchUsersRequest (accessToken nickname : String) (page size : Nat) : HttpRequest :=
  { method := "GET",
    url := BASE_URL ++ "/users/nickname?nickname=" ++ nickname ++ "&page=" ++
      toString page ++ "&size=" ++ toString size,
    headers := authHeaders accessToken, timeout := TIMEOUTS.defaultT }

/-- Request built by `createSchedule` (POST day-plan schedule). -/
def createScheduleRequest (accessToken : String) (dayPlanId : Nat) : HttpRequest :=
  { method := "POST",
    url := BASE_URL ++ "/day-plan/" ++ toString dayPlanId ++ "/schedule",
    headers := authHeaders accessToken, timeout := TIMEOUTS.defaultT }

/-- Request built by `getSchedules` / `getSchedulesByDate`. -/
def getSchedulesRequest (accessToken date : String) (page size : Nat) : HttpRequest :=
  { method := "GET",
    url := BASE_URL ++ "/day-plan/schedule?date=" ++ date ++ "&page=" ++
      toString page ++ "&size=" ++ toString size,
    headers := authHeaders accessToken, timeout := TIMEOUTS.defaultT }

/-- Request built by `updateSchedule` (PUT schedule). -/
def updateScheduleRequest (accessToken : String) (scheduleId : Nat) : HttpRequest :=
  { method := "PUT", url := BASE_URL ++ "/schedule/" ++ toString scheduleId,
    headers := authHeaders accessToken, timeout := TIMEOUTS.defaultT }

/-- Request built by `deleteSchedule` (DELETE schedule). -/
def deleteScheduleRequest (accessToken : String) (scheduleId : Nat) : HttpRequest :=
  { method := "DELETE", url := BASE_URL ++ "/schedule/" ++ toString scheduleId,
    headers := authHeaders accessToken, timeout := TIMEOUTS.defaultT }

/-- Request built by `updateScheduleStatus` (PATCH schedule status). -/
def updateScheduleStatusRequest (accessToken : String) (scheduleId : Nat) : HttpRequest :=
  { method := "PATCH",
    url := BASE_URL ++ "/schedule/" ++ toString scheduleId ++ "/status",
    headers := authHeaders accessToken, timeout := TIMEOUTS.defaultT }

/-- Request built by `aiScheduleArrangement` (POST, 30s AI timeout). -/
def aiScheduleArrangementRequest (accessToken : String) (dayPlanId : Nat) : HttpRequest :=
  { method := "POST",
    url := BASE_URL ++ "/day-plan/" ++ toString dayPlanId ++ "/schedules/ai-arrangement",
    headers := authHeaders accessToken, timeout := TIMEOUTS.ai_related }

/-- Request built by `getNotifications`. -/
def getNotificationsRequest (accessToken : String) (page size : Nat) : HttpRequest :=
  { method := "GET",
    url := BASE_URL ++ "/notifications?page=" ++ toString page ++ "&size=" ++ toString size,
    headers := authHeaders accessToken, timeout := TIMEOUTS.defaultT }

/-- Request built by `healthCheck` (GET `${BASE_URL}/`, no extra headers). -/
def healthCheckRequest : HttpRequest :=
  { method := "GET", url := BASE_URL ++ "/", headers := [], timeout := TIMEOUTS.defaultT }

/-! ## Response bodies and helper semantics (`k6-scripts-v3/helpers.js`)

A k6 response carries a status, a body string and timings.  We model the body
at the level the helpers inspect it: either `JSON.parse` throws (`malformed`)
or it yields an object whose `data` field may be absent and whose interesting
subfields may each be absent.  JS truthiness is explicit: an absent field, the
empty string and the number `0` are falsy. -/

structure BodyFields where
  accessToken : Option String
  userId : Option Nat
  email : Option String
  dayPlanId : Option Nat
  scheduleId : Option Nat
deriving DecidableEq

inductive BodyData where
  | malformed : BodyData
  | wellFormed : Option BodyFields → BodyData
deriving DecidableEq

structure HttpResponse where
  status : Nat
  body : BodyData
  duration : ℚ
deriving DecidableEq

/-- JS truthiness of an optional string field (`undefined`, `null`, `""` falsy). -/
def truthyStr (s : Option String) : Bool :=
  match s with
  | some v => v != ""
  | none => false

/-- JS truthiness of an optional numeric field (`undefined`, `null`, `0` falsy). -/
def truthyNat (n : Option Nat) : Bool :=
  match n with
  | some v => v != 0
  | none => false

/-- The `'login: has access token'` check predicate of `login`: JSON.parse in a
try/catch (returns false on malformed body), then `body.data && body.data.accessToken`. -/
def hasAccessTokenCheck (r : HttpResponse) : Bool :=
  match r.body with
  | .malformed => false
  | .wellFormed none => false
  | .wellFormed (some f) => truthyStr f.accessToken

/-- The `'signup: has user id'` check predicate of `signup`. -/
def hasUserIdCheck (r : HttpResponse) : Bool :=
  match r.body with
  | .malformed => false
  | .wellFormed none => false
  | .wellFormed (some f) => truthyNat f.userId

/-- The `'get_profile: has user data'` check predicate of `getProfile`
(`body.data && body.data.email`). -/
def hasUserDataCheck (r : HttpResponse) : Bool :=
  match r.body with
  | .malformed => false
  | .wellFormed none => false
  | .wellFormed (some f) => truthyStr f.email

/-- The `'get_schedules_by_date: has dayPlanId'` check predicate of
`getSchedulesByDate`. -/
def hasDayPlanIdCheck (r : HttpResponse) : Bool :=
  match r.body with
  | .malformed => false
  | .wellFormed none => false
  | .wellFormed (some f) => truthyNat f.dayPlanId

/-- The `'create_schedule: has schedule id'` check predicate of `createSchedule`. -/
def hasScheduleIdCheck (r : HttpResponse) : Bool :=
  match r.body with
  | .malformed => false
  | .wellFormed none => false
  | .wellFormed (some f) => truthyNat f.scheduleId

/-- Field extraction used on the success paths (`JSON.parse(response.body).data.x`);
total here because the success checks guarantee the shape. -/
def extractAccessToken (r : HttpResponse) : String :=
  match r.body with
  | .wellFormed (some f) => f.accessToken.getD ""
  | _ => ""

def extractUserId (r : HttpResponse) : Nat :=
  match r.body with
  | .wellFormed (some f) => f.userId.getD 0
  | _ => 0

def extractDayPlanId (r : HttpResponse) : Nat :=
  match r.body with
  | .wellFormed (some f) => f.dayPlanId.getD 0
  | _ => 0

def extractScheduleId (r : HttpResponse) : Nat :=
  match r.body with
  | .wellFormed (some f) => f.scheduleId.getD 0
  | _ => 0

/-- One sample emitted into a custom k6 metric: `Trend.add` or `Rate.add`. -/
inductive MetricEvent where
  | trend : String → ℚ → MetricEvent
  | rate : String → Bool → MetricEvent
deriving DecidableEq

/-- What one helper call produces: its JS return value (`none` = `null`),
the custom-metric samples it emitted, and its k6 `check` results. -/
structure HelperOutcome (α : Type) where
  result : Option α
  events : List MetricEvent
  checks : List (String × Bool)

/-- Number of samples a list of metric events adds to the named Trend. -/
def trendCount (name : String) (evs : List MetricEvent) : Nat :=
  (evs.filter fun e =>
    match e with
    | .trend n _ => n == name
    | .rate _ _ => false).length

structure LoginResult where
  accessToken : String
deriving DecidableEq

/-- `login` from helpers.js: records `login_duration`, runs the three checks,
records `login_failures`, and returns the token object or `null`. -/
def login (r : HttpResponse) : HelperOutcome LoginResult :=
  let checks := [("login: status is 200", r.status == 200),
                 ("login: has access token", hasAccessTokenCheck r),
                 ("login: response time < 500ms", decide (r.duration < 500))]
  let success := checks.all (·.2)
  { result := if success then some { accessToken := extractAccessToken r } else none,
    events := [.trend "login_duration" r.duration, .rate "login_failures" (!success)],
    checks := checks }

structure SignupResult where
  userId : Nat
  accessToken : String
deriving DecidableEq

/-- `signup` from helpers.js: records `signup_duration`, checks status and
user id (the `'signup: status is 201'` check actually tests `=== 200`),
and returns `{userId, accessToken}` or `null`.  The access token is returned
unchecked, so it may be absent (`""`). -/
def signup (r : HttpResponse) : HelperOutcome SignupResult :=
  let checks := [("signup: status is 201", r.status == 200),
                 ("signup: has user id", hasUserIdCheck r)]
  let success := checks.all (·.2)
  { result :=
      if success then
        some { userId := extractUserId r, accessToken := extractAccessToken r }
      else none,
    events := [.trend "signup_duration" r.duration],
    checks := checks }

/-- `getProfile` from helpers.js: records `get_profile_duration` and returns
the profile data or `null`. -/
def getProfile (r : HttpResponse) : HelperOutcome BodyFields :=
  let checks := [("get_profile: status is 200", r.status == 200),
                 ("get_profile: has user data", hasUserDataCheck r),
                 ("get_profile: response time < 500ms", decide (r.duration < 500))]
  let success := checks.all (·.2)
  { result :=
      if success then
        match r.body with
        | .wellFormed (some f) => some f
        | _ => none
      else none,
    events := [.trend "get_profile_duration" r.duration],
    checks := checks }

/-- `searchUsers` from helpers.js: records `search_users_duration`, checks,
and always returns the response. -/
def searchUsers (r : HttpResponse) : HelperOutcome HttpResponse :=
  { result := some r,
    events := [.trend "search_users_duration" r.duration],
    checks := [("search_users: status is 200", r.status == 200),
               ("search_users: response time < 1000ms", decide (r.duration < 1000))] }

/-- `createSchedule` from helpers.js: records `create_schedule_duration`
(the `'create_schedule: status is 201'` check actually tests `=== 200`) and
returns the created schedule data or `null`. -/
def createSchedule (r : HttpResponse) : HelperOutcome BodyFields :=
  let checks := [("create_schedule: status is 201", r.status == 200),
                 ("create_schedule: has schedule id", hasScheduleIdCheck r),
                 ("create_schedule: response time < 1500ms", decide (r.duration < 1500))]
  let success := checks.all (·.2)
  { result :=
      if success then
        match r.body with
        | .wellFormed (some f) => some f
        | _ => none
      else none,
    events := [.trend "create_schedule_duration" r.duration],
    checks := checks }

/-- `getSchedules` from helpers.js: records `get_schedules_duration`, checks,
and always returns the response. -/
def getSchedules (r : HttpResponse) : HelperOutcome HttpResponse :=
  { result := some r,
    events := [.trend "get_schedules_duration" r.duration],
    checks := [("get_schedules: status is 200", r.status == 200),
               ("get_schedules: response time < 1000ms", decide (r.duration < 1000))] }

structure ScheduleInfo where
  dayPlanId : Nat
deriving DecidableEq

/-- `getSchedulesByDate` from helpers.js: records `get_schedules_duration`
(shared with `getSchedules`), checks status and dayPlanId, and returns
`{dayPlanId, ...}` or `null`. -/
def getSchedulesByDate (r : HttpResponse) : HelperOutcome ScheduleInfo :=
  let checks := [("get_schedules_by_date: status is 200", r.status == 200),
                 ("get_schedules_by_date: has dayPlanId", hasDayPlanIdCheck r)]
  let success := checks.all (·.2)
  { result := if success then some { dayPlanId := extractDayPlanId r } else none,
    events := [.trend "get_schedules_duration" r.duration],
    checks := checks }

/-- `deleteSchedule` from helpers.js: records `delete_schedule_duration`,
checks the status, and always returns the response. -/
def deleteSchedule (r : HttpResponse) : HelperOutcome HttpResponse :=
  { result := some r,
    events := [.trend "delete_schedule_duration" r.duration],
    checks := [("delete_schedule: status is 204", r.status == 204)] }

/-- `logout` from helpers.js: only a status check, nothing returned. -/
def logout (r : HttpResponse) : HelperOutcome Unit :=
  { result := some (),
    events := [],
    checks := [("logout: status is 204", r.status == 204)] }

/-- `healthCheck` from helpers.js: returns the boolean conjunction of its
two checks. -/
def healthCheck (r : HttpResponse) : Bool :=
  [("health_check: status is 200", r.status == 200),
   ("health_check: response time < 100ms", decide (r.duration < 100))].all (·.2)

/-! ## Journey iteration bodies (the stress-test and load-test scripts)

The k6 `default function` of each script is one journey iteration.  Its
control flow depends only on which helper calls succeed, so we abstract one
iteration's network environment into the results the three gating helpers
return, and compute which steps the iteration invokes (in order) and which
scenario-level metric samples it records. -/

/-- The helper results that steer one iteration:
`signupResult` is what `signup()` returned (`none` = `null`),
`scheduleInfo` is what `getSchedulesByDate()` returned (the dayPlanId),
`createResult` is what `createSchedule()` returned (the scheduleId). -/
structure StepEnv where
  signupResult : Option SignupResult
  scheduleInfo : Option Nat
  createResult : Option Nat
deriving DecidableEq

/-- The helper calls a journey iteration can make, in source order. -/
inductive StepLabel where
  | signupStep
  | getProfileStep
  | getSchedulesByDateStep
  | createScheduleStep
  | getSchedulesStep
  | updateScheduleStatusStep
  | searchUsersStep
  | getNotificationsStep
  | deleteScheduleStep
  | logoutStep
deriving DecidableEq

/-- What one iteration did: the ordered list of helper invocations, the
samples added to the `scenario_failures` Rate, and the number of samples
added to the `full_scenario_duration` Trend. -/
structure IterRecord where
  invoked : List StepLabel
  scenarioFailSamples : List Bool
  fullScenarioSamples : Nat
deriving DecidableEq

/-- `accessToken` as the script sees it after the signup group
(`null` result or an absent token leave it falsy). -/
def tokenOf (env : StepEnv) : String :=
  match env.signupResult with
  | some res => res.accessToken
  | none => ""

/-- `dayPlanId` after the read group: assigned only when
`scheduleInfo && scheduleInfo.dayPlanId` is truthy. -/
def truthyDayPlan (info : Option Nat) : Option Nat :=
  match info with
  | some d => if d = 0 then none else some d
  | none => none

/-- One iteration of the stress-test script (`default function`):
signup → read (getProfile, getSchedulesByDate) → write (createSchedule) →
verify (getSchedules) → cleanup (guarded deleteSchedule, logout).
Early `return`s on a falsy access token or dayPlanId record a
`scenario_failures` sample and skip everything after them; a failed
`createSchedule` only clears `scenarioSuccess`. -/
def stressIteration (env : StepEnv) : IterRecord :=
  if tokenOf env = "" then
    { invoked := [.signupStep], scenarioFailSamples := [true], fullScenarioSamples := 0 }
  else
    match truthyDayPlan env.scheduleInfo with
    | none =>
      { invoked := [.signupStep, .getProfileStep, .getSchedulesByDateStep],
        scenarioFailSamples := [true], fullScenarioSamples := 0 }
    | some _ =>
      let createTruthy := env.createResult.isSome
      let cleanupDelete : List StepLabel :=
        if env.createResult.getD 0 ≠ 0 then [.deleteScheduleStep] else []
      { invoked := [.signupStep, .getProfileStep, .getSchedulesByDateStep,
          .createScheduleStep, .getSchedulesStep] ++ cleanupDelete ++ [.logoutStep],
        scenarioFailSamples := [!createTruthy],
        fullScenarioSamples := 1 }

/-- One iteration of the load-test script (`default function`):
01_Signup → 02_Initial_Load → 03_Schedule_Operations (createSchedule,
getSchedules, guarded updateScheduleStatus) → 04_Social_Features →
05_Cleanup (guarded deleteSchedule, logout). -/
def loadIteration (env : StepEnv) : IterRecord :=
  if tokenOf env = "" then
    { invoked := [.signupStep], scenarioFailSamples := [true], fullScenarioSamples := 0 }
  else
    match truthyDayPlan env.scheduleInfo with
    | none =>
      { invoked := [.signupStep, .getProfileStep, .getSchedulesByDateStep],
        scenarioFailSamples := [true], fullScenarioSamples := 0 }
    | some _ =>
      let createTruthy := env.createResult.isSome
      let guarded : List StepLabel → List StepLabel := fun steps =>
        if env.createResult.getD 0 ≠ 0 then steps else []
      { invoked := [.signupStep, .getProfileStep, .getSchedulesByDateStep,
          .createScheduleStep, .getSchedulesStep] ++ guarded [.updateScheduleStatusStep] ++
          [.searchUsersStep, .getNotificationsStep] ++ guarded [.deleteScheduleStep] ++
          [.logoutStep],
        scenarioFailSamples := [!createTruthy],
        fullScenarioSamples := 1 }

structure TestInfo where
  startTime : String
  testType : String
deriving DecidableEq

/-- The k6 `setup()` hook of the stress-test script: health-checks the server
and throws `Error('Server health check failed')` when the check fails,
which aborts the whole run before any VU iteration starts. -/
def setup (healthCheckResponse : HttpResponse) (startTime : String) :
    Except String TestInfo :=
  if healthCheck healthCheckResponse then
    .ok { startTime := startTime, testType := "stress" }
  else
    .error "Server health check failed"

/-! ## Report generation (`report-generator.js`, `generateHtmlReport`)

The HTML is styling; what the report *contains* is the set of dynamic values
the template interpolates.  `ReportSummary` holds those values:
`sections` collects everything the named sections render (summary cards,
response-time table, thresholds, execution info, per-API table, HTTP-phase
table, check table), and `rawMetrics` is the full metrics object embedded
verbatim by the collapsed raw-data section
(`JSON.stringify(metrics, null, 2)`).  `generateHtmlReport` extracts them
from the k6 summary `data` the same way the JS does
(`metrics.x || {}`, `values?.y || 0`). -/

/-- The `values` object of one k6 metric in the summary `data`
(absent entries read as 0 through `|| 0`). -/
structure MetricValues where
  count : Nat := 0
  rate : ℚ := 0
  avg : ℚ := 0
  min : ℚ := 0
  max : ℚ := 0
  med : ℚ := 0
  p90 : ℚ := 0
  p95 : ℚ := 0
  p99 : ℚ := 0
deriving DecidableEq

/-- One threshold entry of `data.thresholds`: k6 reports only `ok`. -/
structure ThresholdSourceResult where
  ok : Bool
deriving DecidableEq

/-- One k6 check row (`{name, passes, fails}`) inside a group tree. -/
structure CheckCounts where
  name : String
  passes : Nat
  fails : Nat
deriving DecidableEq

/-- A k6 group node: its checks plus subgroups. -/
inductive GroupNode where
  | node : List CheckCounts → List GroupNode → GroupNode

/-- The k6 summary `data` handed to `handleSummary`/`generateHtmlReport`. -/
structure SummaryData where
  metrics : List (String × MetricValues)
  thresholds : List (String × ThresholdSourceResult)
  root_group : GroupNode

/-- `metrics.name || {}` followed by `values?.x || 0`: a missing metric
contributes the all-zero `MetricValues`. -/
def lookupMetric (metrics : List (String × MetricValues)) (name : String) : MetricValues :=
  match metrics.find? (fun p => p.1 == name) with
  | some p => p.2
  | none => {}

/-- One row of the report's threshold table. -/
structure ThresholdOutcome where
  name : String
  passed : Bool
deriving DecidableEq

/-- The `thresholdResults` computation of `generateHtmlReport`:
`Object.entries(data.thresholds).map(([name, result]) => ({name, passed: result.ok}))`.
Note only the boolean `ok` survives. -/
def thresholdResults (data : SummaryData) : List ThresholdOutcome :=
  data.thresholds.map fun p => { name := p.1, passed := p.2.ok }

mutual

/-- `collectAllChecks` of report-generator.js: depth-first collection of all
check rows of the group tree. -/
def collectAllChecks : GroupNode → List CheckCounts
  | .node checks subs => checks ++ collectAllChecksList subs

/-- Recursion over the subgroup list of `collectAllChecks`. -/
def collectAllChecksList : List GroupNode → List CheckCounts
  | [] => []
  | g :: gs => collectAllChecks g ++ collectAllChecksList gs

end

/-- The `durationMetricNames` array of `generateHtmlReport`: the custom
Trend metrics the per-API table lists when present. -/
def durationMetricNames : List String :=
  ["signup_duration", "login_duration", "create_schedule_duration",
   "get_schedules_duration", "get_profile_duration", "search_users_duration",
   "delete_schedule_duration", "full_scenario_duration", "group_duration",
   "iteration_duration"]

/-- One row of the per-API response-time table: the template interpolates
avg, med, min, max, p90 and p95 of the metric. -/
structure ApiRow where
  name : String
  avg : ℚ
  med : ℚ
  min : ℚ
  max : ℚ
  p90 : ℚ
  p95 : ℚ
deriving DecidableEq

/-- The values the per-API table renders for one custom metric. -/
def apiRow (name : String) (mv : MetricValues) : ApiRow :=
  { name := name, avg := mv.avg, med := mv.med, min := mv.min,
    max := mv.max, p90 := mv.p90, p95 := mv.p95 }

/-- The `customDurationMetrics` accumulation of `generateHtmlReport`
(`durationMetricNames.forEach(... if (metrics[name]) ...)`) followed by the
per-API table mapping: only metrics actually present contribute a row. -/
def customDurationRows (metrics : List (String × MetricValues)) : List ApiRow :=
  durationMetricNames.filterMap fun n =>
    (metrics.find? fun p => p.1 == n).map fun p => apiRow n p.2

/-- One row of the HTTP request-phase table: the template interpolates
avg, med, p95 and max of the phase metric. -/
structure PhaseRow where
  avg : ℚ
  med : ℚ
  p95 : ℚ
  max : ℚ
deriving DecidableEq

/-- The values the HTTP-phase table renders for one phase metric. -/
def phaseRow (mv : MetricValues) : PhaseRow :=
  { avg := mv.avg, med := mv.med, p95 := mv.p95, max := mv.max }

/-- The dynamic values rendered by the report's named sections (everything
except the raw-data dump). -/
structure ReportSections where
  testName : String
  requestSuccessRatePct : ℚ
  totalRequests : Nat
  avgResponseMs : ℚ
  p95ResponseMs : ℚ
  requestRate : ℚ
  maxVus : ℚ
  durationMin : ℚ
  durationAvg : ℚ
  durationMed : ℚ
  durationP90 : ℚ
  durationP95 : ℚ
  durationP99 : ℚ
  durationMax : ℚ
  thresholds : List ThresholdOutcome
  passedThresholds : Nat
  failedThresholds : Nat
  totalIterations : Nat
  iterationRate : ℚ
  scenarioFailureRatePct : ℚ
  apiRows : List ApiRow
  blocked : PhaseRow
  connecting : PhaseRow
  tlsHandshaking : PhaseRow
  sending : PhaseRow
  waiting : PhaseRow
  receiving : PhaseRow
  checks : List CheckCounts
deriving DecidableEq

/-- The dynamic content of the generated HTML report: the named sections
plus the verbatim `JSON.stringify(metrics, null, 2)` raw-data dump. -/
structure ReportSummary where
  sections : ReportSections
  rawMetrics : List (String × MetricValues)
deriving DecidableEq

/-- `generateHtmlReport` of report-generator.js, as the summary values it
interpolates into the HTML template. -/
def generateHtmlReport (data : SummaryData) (testName : String) : ReportSummary :=
  let httpReqDuration := lookupMetric data.metrics "http_req_duration"
  let httpReqFailed := lookupMetric data.metrics "http_req_failed"
  let httpReqs := lookupMetric data.metrics "http_reqs"
  let iterations := lookupMetric data.metrics "iterations"
  let vus := lookupMetric data.metrics "vus"
  let scenarioFailures := lookupMetric data.metrics "scenario_failures"
  let httpReqBlocked := lookupMetric data.metrics "http_req_blocked"
  let httpReqConnecting := lookupMetric data.metrics "http_req_connecting"
  let httpReqTlsHandshaking := lookupMetric data.metrics "http_req_tls_handshaking"
  let httpReqSending := lookupMetric data.metrics "http_req_sending"
  let httpReqWaiting := lookupMetric data.metrics "http_req_waiting"
  let httpReqReceiving := lookupMetric data.metrics "http_req_receiving"
  let tRes := thresholdResults data
  { sections :=
      { testName := testName,
        requestSuccessRatePct := (1 - httpReqFailed.rate) * 100,
        totalRequests := httpReqs.count,
        avgResponseMs := httpReqDuration.avg,
        p95ResponseMs := httpReqDuration.p95,
        requestRate := httpReqs.rate,
        maxVus := vus.max,
        durationMin := httpReqDuration.min,
        durationAvg := httpReqDuration.avg,
        durationMed := httpReqDuration.med,
        durationP90 := httpReqDuration.p90,
        durationP95 := httpReqDuration.p95,
        durationP99 := httpReqDuration.p99,
        durationMax := httpReqDuration.max,
        thresholds := tRes,
        passedThresholds := (tRes.filter (·.passed)).length,
        failedThresholds := (tRes.filter fun t => !t.passed).length,
        totalIterations := iterations.count,
        iterationRate := iterations.rate,
        scenarioFailureRatePct := scenarioFailures.rate * 100,
        apiRows := customDurationRows data.metrics,
        blocked := phaseRow httpReqBlocked,
        connecting := phaseRow httpReqConnecting,
        tlsHandshaking := phaseRow httpReqTlsHandshaking,
        sending := phaseRow httpReqSending,
        waiting := phaseRow httpReqWaiting,
        receiving := phaseRow httpReqReceiving,
        checks := collectAllChecks data.root_group },
    rawMetrics := data.metrics }

/-! ## Percentiles (k6 engine, modelled from the spec)

Modelled from the spec: the percentile computation lives inside the k6
engine's MetricSink, which is not part of the repository sources; §4.1 of
the spec requires p50/p90/p95/p99 with a single deterministic method,
"nearest-rank or linear-interpolation — pick one".  We model nearest-rank:
sort the samples and take the entry at rank `⌈p·n/100⌉` (at least 1). -/

def percentileNR (xs : List ℚ) (p : Nat) : ℚ :=
  let sorted := xs.insertionSort (· ≤ ·)
  let n := xs.length
  let rank := max 1 ((p * n + 99) / 100)
  sorted.getD (rank - 1) 0

/-! ## `selectTestUser` (`k6-scripts-v3/helpers.js`) -/

/-- `selectTestUser(users, vuId)`: `users[(vuId - 1) % users.length]`. -/
def selectTestUser (users : List String) (vuId : Nat) : Option String :=
  users[(vuId - 1) % users.length]?

/-! ## Concrete inputs used by counterexamples and witnesses -/

/-- `TEST_USERS` from config.js (their emails). -/
def TEST_USERS : List String :=
  ["loadtest1@test.com", "loadtest2@test.com", "loadtest3@test.com",
   "loadtest4@test.com", "loadtest5@test.com"]

/-- An iteration environment in which signup and the dayPlanId lookup succeed
but `createSchedule` returns `null`. -/
def envCreateFail : StepEnv :=
  { signupResult := some { userId := 1, accessToken := "tok" },
    scheduleInfo := some 1,
    createResult := none }

/-- A k6 summary in which the `signup_duration` series has zero samples and
its threshold failed. -/
def summaryNoData : SummaryData :=
  { metrics := [("signup_duration", { count := 0 })],
    thresholds := [("signup_duration: p(95)<2000", { ok := false })],
    root_group := .node [] [] }

/-- A k6 summary in which the `signup_duration` series has 57 samples and
its threshold failed. -/
def summaryWithSamples : SummaryData :=
  { metrics := [("signup_duration", { count := 57, avg := 120 })],
    thresholds := [("signup_duration: p(95)<2000", { ok := false })],
    root_group := .node [] [] }

/-- A k6 summary of a run with 100 iterations and no abort information. -/
def summaryRunA : SummaryData :=
  { metrics := [("iterations", { count := 100, rate := 1 })],
    thresholds := [],
    root_group := .node [] [] }

/-- The same run as `summaryRunA` but with 7 aborted iterations exposed as an
extra metric series. -/
def summaryRunB : SummaryData :=
  { metrics := [("iterations", { count := 100, rate := 1 }),
                ("aborted_iterations", { count := 7 })],
    thresholds := [],
    root_group := .node [] [] }

/-! ## Supporting lemmas -/

/-- Nearest-rank percentiles are monotone in the requested percentile. -/
theorem percentileNR_mono (xs : List ℚ) (p q : Nat) (hne : xs ≠ [])
    (hpq : p ≤ q) (hq : q ≤ 100) : percentileNR xs p ≤ percentileNR xs q := by
  have hn : 0 < xs.length := List.length_pos.mpr hne
  unfold percentileNR
  set s := xs.insertionSort (· ≤ ·) with hs
  have hslen : s.length = xs.length := List.length_insertionSort _ _
  have hsorted : s.Sorted (· ≤ ·) := List.sorted_insertionSort _ _
  set n := xs.length with hndef
  set rp := max 1 ((p * n + 99) / 100) with hrp
  set rq := max 1 ((q * n + 99) / 100) with hrq
  have hrankmono : rp ≤ rq := by
    apply max_le_max le_rfl
    exact Nat.div_le_div_right (by nlinarith)
  have hrq_le : rq ≤ n := by
    apply max_le hn
    calc (q * n + 99) / 100 ≤ (100 * n + 99) / 100 :=
          Nat.div_le_div_right (by nlinarith)
      _ = n + 99 / 100 := Nat.mul_add_div (by norm_num) n 99
      _ = n := by norm_num
  have hrp_pos : 1 ≤ rp := le_max_left _ _
  have hrq_pos : 1 ≤ rq := le_max_left _ _
  have hip : rp - 1 < s.length := by
    rw [hslen]
    omega
  have hiq : rq - 1 < s.length := by
    rw [hslen]
    omega
  rw [List.getD_eq_getElem _ _ hip, List.getD_eq_getElem _ _ hiq]
  have := hsorted.rel_get_of_le (a := ⟨rp - 1, hip⟩) (b := ⟨rq - 1, hiq⟩)
    (by simpa using Nat.sub_le_sub_right hrankmono 1)
  simpa [List.get_eq_getElem] using this

/-- Appending a metric series with a fresh name leaves every other lookup
unchanged. -/
theorem lookupMetric_append_ne (ms : List (String × MetricValues)) (nm : String)
    (mv : MetricValues) (n : String) (h : n ≠ nm) :
    lookupMetric (ms ++ [(nm, mv)]) n = lookupMetric ms n := by
  unfold lookupMetric
  rw [List.find?_append]
  cases hfind : ms.find? (fun p => p.1 == n) with
  | some p => simp [hfind]
  | none =>
    have : (nm == n) = false := by
      simpa using Ne.symm h
    simp [hfind, List.find?, this]

/-- Appending a metric series whose name is not a listed custom duration
metric leaves the per-API table unchanged. -/
theorem customDurationRows_append_ne (ms : List (String × MetricValues))
    (nm : String) (mv : MetricValues) (h : nm ∉ durationMetricNames) :
    customDurationRows (ms ++ [(nm, mv)]) = customDurationRows ms := by
  unfold customDurationRows
  refine List.filterMap_congr ?_
  intro n hn
  have hne : (nm == n) = false := by
    simp only [beq_eq_false_iff_ne, ne_eq]
    intro e
    exact h (e ▸ hn)
  rw [List.find?_append]
  cases hfind : ms.find? (fun p => p.1 == n) with
  | some p => simp [hfind]
  | none => simp [hfind, List.find?, hne]

/-- `customDurationRows` is unchanged by an appended `aborted_iterations`
series, which is not one of the listed custom duration metrics. -/
theorem customDurationRows_append_aborted (ms : List (String × MetricValues))
    (mv : MetricValues) :
    customDurationRows (ms ++ [("aborted_iterations", mv)]) = customDurationRows ms :=
  customDurationRows_append_ne ms _ mv (by decide)

/-! ## Claim theorems -/

/-- C8: Process-wide configuration (base URL, timeouts, default headers) is
read once and never mutated: every HTTP helper builds its request from the
same `BASE_URL`, `TIMEOUTS` and `DEFAULT_HEADERS` constants — timeouts are
`TIMEOUTS.defaultT` (the AI call `TIMEOUTS.ai_related`), header lists start
from `DEFAULT_HEADERS`, and every URL extends `BASE_URL`; no call path can
observe different values. -/
theorem config_read_once (t1 t2 date : String) (dp sid page size : Nat) :
    loginRequest.timeout = TIMEOUTS.defaultT ∧
    signupRequest.timeout = TIMEOUTS.defaultT ∧
    (logoutRequest t1).timeout = TIMEOUTS.defaultT ∧
    (getProfileRequest t1).timeout = TIMEOUTS.defaultT ∧
    (searchUsersRequest t1 t2 page size).timeout = TIMEOUTS.defaultT ∧
    (createScheduleRequest t1 dp).timeout = TIMEOUTS.defaultT ∧
    (getSchedulesRequest t1 date page size).timeout = TIMEOUTS.defaultT ∧
    (updateScheduleRequest t1 sid).timeout = TIMEOUTS.defaultT ∧
    (deleteScheduleRequest t1 sid).timeout = TIMEOUTS.defaultT ∧
    (updateScheduleStatusRequest t1 sid).timeout = TIMEOUTS.defaultT ∧
    (aiScheduleArrangementRequest t1 dp).timeout = TIMEOUTS.ai_related ∧
    (getNotificationsRequest t1 page size).timeout = TIMEOUTS.defaultT ∧
    healthCheckRequest.timeout = TIMEOUTS.defaultT ∧
    loginRequest.headers = DEFAULT_HEADERS ∧
    signupRequest.headers = DEFAULT_HEADERS ∧
    (getProfileRequest t1).headers =
      DEFAULT_HEADERS ++ [("Authorization", "Bearer " ++ t1)] ∧
    (createScheduleRequest t1 dp).headers =
      DEFAULT_HEADERS ++ [("Authorization", "Bearer " ++ t1)] ∧
    (deleteScheduleRequest t1 sid).headers = (getProfileRequest t1).headers ∧
    (∃ rest, loginRequest.url = BASE_URL ++ rest) ∧
    (∃ rest, (createScheduleRequest t1 dp).url = BASE_URL ++ rest) ∧
    (∃ rest, (getSchedulesRequest t1 date page size).url = BASE_URL ++ rest) ∧
    (getProfileRequest t1).timeout = (getProfileRequest t2).timeout := by
  refine ⟨rfl, rfl, rfl, rfl, rfl, rfl, rfl, rfl, rfl, rfl, rfl, rfl, rfl,
    rfl, rfl, rfl, rfl, rfl, ?_, ?_, ?_, rfl⟩
  · exact ⟨"/token", rfl⟩
  · exact ⟨"/day-plan/" ++ toString dp ++ "/schedule", by
      simp [createScheduleRequest, String.append_assoc]⟩
  · exact ⟨"/day-plan/schedule?date=" ++ date ++ "&page=" ++ toString page ++
      "&size=" ++ toString size, by
      simp [getSchedulesRequest, String.append_assoc]⟩

/-- C9 (implicit): every per-endpoint helper that owns a Trend metric appends
exactly one duration sample — the response's `timings.duration` — to that
metric on every call, whether or not its checks pass, so latency percentiles
include failed requests. -/
theorem trend_one_sample_per_call (r : HttpResponse) :
    (trendCount "login_duration" (login r).events = 1 ∧
      MetricEvent.trend "login_duration" r.duration ∈ (login r).events) ∧
    (trendCount "signup_duration" (signup r).events = 1 ∧
      MetricEvent.trend "signup_duration" r.duration ∈ (signup r).events) ∧
    (trendCount "get_profile_duration" (getProfile r).events = 1 ∧
      MetricEvent.trend "get_profile_duration" r.duration ∈ (getProfile r).events) ∧
    (trendCount "create_schedule_duration" (createSchedule r).events = 1 ∧
      MetricEvent.trend "create_schedule_duration" r.duration ∈ (createSchedule r).events) ∧
    (trendCount "get_schedules_duration" (getSchedules r).events = 1 ∧
      MetricEvent.trend "get_schedules_duration" r.duration ∈ (getSchedules r).events) ∧
    (trendCount "get_schedules_duration" (getSchedulesByDate r).events = 1 ∧
      MetricEvent.trend "get_schedules_duration" r.duration ∈ (getSchedulesByDate r).events) ∧
    (trendCount "delete_schedule_duration" (deleteSchedule r).events = 1 ∧
      MetricEvent.trend "delete_schedule_duration" r.duration ∈ (deleteSchedule r).events) := by
  refine ⟨⟨?_, ?_⟩, ⟨?_, ?_⟩, ⟨?_, ?_⟩, ⟨?_, ?_⟩, ⟨?_, ?_⟩, ⟨?_, ?_⟩, ⟨?_, ?_⟩⟩ <;>
    simp [login, signup, getProfile, createSchedule, getSchedules,
      getSchedulesByDate, deleteSchedule, trendCount, List.filter]

/-- C10 (implicit): for a non-empty user pool and `vuId ≥ 1`,
`selectTestUser` deterministically returns the element at index
`(vuId - 1) % users.length`; it never goes out of bounds, and VUs whose ids
are congruent modulo the pool size get the same user. -/
theorem selectTestUser_spec (users : List String) (v1 v2 : Nat)
    (hne : users ≠ []) (h1 : 1 ≤ v1) (h2 : 1 ≤ v2) :
    (∃ hlt : (v1 - 1) % users.length < users.length,
        selectTestUser users v1 = some (users.get ⟨(v1 - 1) % users.length, hlt⟩)) ∧
    (∀ u, selectTestUser users v1 = some u → u ∈ users) ∧
    (v1 % users.length = v2 % users.length →
        selectTestUser users v1 = selectTestUser users v2) := by
  have hlen : 0 < users.length := List.length_pos.mpr hne
  have hlt : (v1 - 1) % users.length < users.length := Nat.mod_lt _ hlen
  refine ⟨⟨hlt, ?_⟩, ?_, ?_⟩
  · simp [selectTestUser, List.getElem?_eq_getElem hlt]
  · intro u hu
    simp only [selectTestUser] at hu
    exact List.getElem?_mem hu
  · intro h
    have e1 : v1 - 1 + 1 = v1 := by omega
    have e2 : v2 - 1 + 1 = v2 := by omega
    have hmod : (v1 - 1) % users.length = (v2 - 1) % users.length := by
      refine Nat.ModEq.add_right_cancel' 1 ?_
      show (v1 - 1 + 1) % users.length = (v2 - 1 + 1) % users.length
      rw [e1, e2]
      exact h
    simp [selectTestUser, hmod]

/-- Witness for C10: with the five-user `TEST_USERS` pool, VU 7 gets the same
user as VU 2 (index 1), and the result is a pool member. -/
theorem selectTestUser_spec_witness :
    (∃ hlt : (7 - 1) % TEST_USERS.length < TEST_USERS.length,
        selectTestUser TEST_USERS 7 = some (TEST_USERS.get ⟨(7 - 1) % TEST_USERS.length, hlt⟩)) ∧
    (∀ u, selectTestUser TEST_USERS 7 = some u → u ∈ TEST_USERS) ∧
    ((7 : Nat) % TEST_USERS.length = 2 % TEST_USERS.length →
        selectTestUser TEST_USERS 7 = selectTestUser TEST_USERS 2) :=
  selectTestUser_spec TEST_USERS 7 2 (by decide) (by decide) (by decide)

/-- C5: step-level errors never escape the iteration and iteration-level
failures never escape the runner — whatever the helpers return (including
every failure), each iteration terminates normally and records exactly one
journey outcome sample; only the `setup` health check failure is raised as an
error, which halts the whole run. -/
theorem error_propagation_policy :
    (∀ env, (stressIteration env).scenarioFailSamples.length = 1) ∧
    (∀ env, (loadIteration env).scenarioFailSamples.length = 1) ∧
    (∀ r st, healthCheck r = false →
        setup r st = .error "Server health check failed") ∧
    (∀ r st, healthCheck r = true →
        setup r st = .ok { startTime := st, testType := "stress" }) := by
  refine ⟨?_, ?_, ?_, ?_⟩
  · intro env
    unfold stressIteration
    split
    · rfl
    · cases truthyDayPlan env.scheduleInfo <;> rfl
  · intro env
    unfold loadIteration
    split
    · rfl
    · cases truthyDayPlan env.scheduleInfo <;> rfl
  · intro r st h
    simp [setup, h]
  · intro r st h
    simp [setup, h]

/-- Witness for C5: a health-check response with status 503 makes `setup`
raise the run-halting error. -/
theorem error_propagation_policy_witness :
    setup { status := 503, body := .malformed, duration := 20 } "2025-01-01" =
      .error "Server health check failed" :=
  error_propagation_policy.2.2.1 _ "2025-01-01" (by decide)

/-- C6: a malformed response body, a missing `data` object, or absent required
fields (access token, dayPlanId) make the extracting helper's check evaluate to
`false` and the helper return `null` — a recorded step failure, never a thrown
exception (the predicates catch the parse failure). -/
theorem malformed_body_step_failure (r : HttpResponse)
    (h : r.body = .malformed ∨ r.body = .wellFormed none ∨
        ∃ f, r.body = .wellFormed (some f) ∧ f.accessToken = none ∧ f.dayPlanId = none) :
    hasAccessTokenCheck r = false ∧
    (login r).result = none ∧
    ("login: has access token", false) ∈ (login r).checks ∧
    MetricEvent.rate "login_failures" true ∈ (login r).events ∧
    hasDayPlanIdCheck r = false ∧
    (getSchedulesByDate r).result = none ∧
    ("get_schedules_by_date: has dayPlanId", false) ∈ (getSchedulesByDate r).checks := by
  have hat : hasAccessTokenCheck r = false := by
    rcases h with h | h | ⟨f, h, ha, hd⟩ <;>
      simp [hasAccessTokenCheck, h, truthyStr, *]
  have hdp : hasDayPlanIdCheck r = false := by
    rcases h with h | h | ⟨f, h, ha, hd⟩ <;>
      simp [hasDayPlanIdCheck, h, truthyNat, *]
  refine ⟨hat, ?_, ?_, ?_, hdp, ?_, ?_⟩ <;>
    simp [login, getSchedulesByDate, hat, hdp]

/-- Witness for C6: a 200 response whose body fails to parse is a step
failure for both `login` and `getSchedulesByDate`, not a crash. -/
theorem malformed_body_step_failure_witness :
    hasAccessTokenCheck { status := 200, body := .malformed, duration := 10 } = false ∧
    (login { status := 200, body := .malformed, duration := 10 }).result = none ∧
    ("login: has access token", false) ∈
      (login { status := 200, body := .malformed, duration := 10 }).checks ∧
    MetricEvent.rate "login_failures" true ∈
      (login { status := 200, body := .malformed, duration := 10 }).events ∧
    hasDayPlanIdCheck { status := 200, body := .malformed, duration := 10 } = false ∧
    (getSchedulesByDate { status := 200, body := .malformed, duration := 10 }).result = none ∧
    ("get_schedules_by_date: has dayPlanId", false) ∈
      (getSchedulesByDate { status := 200, body := .malformed, duration := 10 }).checks :=
  malformed_body_step_failure _ (Or.inl rfl)

/-- C7: for every non-empty numeric series the (spec-modelled, nearest-rank)
percentiles are monotone: p50 ≤ p90 ≤ p95 ≤ p99. -/
theorem percentile_monotone (xs : List ℚ) (hne : xs ≠ []) :
    percentileNR xs 50 ≤ percentileNR xs 90 ∧
    percentileNR xs 90 ≤ percentileNR xs 95 ∧
    percentileNR xs 95 ≤ percentileNR xs 99 :=
  ⟨percentileNR_mono xs 50 90 hne (by norm_num) (by norm_num),
   percentileNR_mono xs 90 95 hne (by norm_num) (by norm_num),
   percentileNR_mono xs 95 99 hne (by norm_num) (by norm_num)⟩

/-- Witness for C7: percentile monotonicity on the concrete series [3, 1, 2]. -/
theorem percentile_monotone_witness :
    percentileNR [3, 1, 2] 50 ≤ percentileNR [3, 1, 2] 90 ∧
    percentileNR [3, 1, 2] 90 ≤ percentileNR [3, 1, 2] 95 ∧
    percentileNR [3, 1, 2] 95 ≤ percentileNR [3, 1, 2] 99 :=
  percentile_monotone [3, 1, 2] (by simp)

/-- C1 counterexample: in the stress-test journey, `createSchedule` (a
non-best-effort step) fails, yet the following non-best-effort step
`getSchedules` is invoked once — not zero times — in the same iteration, so
failure of a step does not abort the remaining steps. -/
theorem journey_not_failfast_cex :
    envCreateFail.createResult = none ∧
    (stressIteration envCreateFail).invoked.count StepLabel.createScheduleStep = 1 ∧
    (stressIteration envCreateFail).invoked.count StepLabel.getSchedulesStep = 1 ∧
    (stressIteration envCreateFail).scenarioFailSamples = [true] := by
  decide

/-- C1 (amended): steps run strictly in source order, and failure of the
signup step or of the dayPlanId acquisition aborts the rest of the iteration
(signup is invoked exactly once, everything after the failing step zero
times); but failure of the `createSchedule` step does not abort the later
steps — `getSchedules` and the cleanup still run — the iteration is instead
recorded as failed. -/
theorem journey_failfast_amended (env : StepEnv) :
    (tokenOf env = "" →
        (stressIteration env).invoked = [.signupStep] ∧
        (stressIteration env).scenarioFailSamples = [true]) ∧
    (tokenOf env ≠ "" → truthyDayPlan env.scheduleInfo = none →
        (stressIteration env).invoked =
          [.signupStep, .getProfileStep, .getSchedulesByDateStep] ∧
        (stressIteration env).scenarioFailSamples = [true]) ∧
    (tokenOf env ≠ "" → truthyDayPlan env.scheduleInfo ≠ none →
        env.createResult = none →
        (stressIteration env).invoked =
          [.signupStep, .getProfileStep, .getSchedulesByDateStep,
           .createScheduleStep, .getSchedulesStep, .logoutStep] ∧
        (stressIteration env).scenarioFailSamples = [true]) := by
  refine ⟨?_, ?_, ?_⟩
  · intro h
    simp [stressIteration, h]
  · intro h hdp
    simp [stressIteration, h, hdp]
  · intro h hdp hc
    cases hd : truthyDayPlan env.scheduleInfo with
    | none => exact absurd hd hdp
    | some d => simp [stressIteration, h, hd, hc]

/-- Witness for C1 (amended): the abort-free continuation after a failed
`createSchedule`, at the concrete environment `envCreateFail`. -/
theorem journey_failfast_amended_witness :
    (stressIteration envCreateFail).invoked =
      [.signupStep, .getProfileStep, .getSchedulesByDateStep,
       .createScheduleStep, .getSchedulesStep, .logoutStep] ∧
    (stressIteration envCreateFail).scenarioFailSamples = [true] :=
  (journey_failfast_amended envCreateFail).2.2 (by decide) (by decide) rfl

/-- C2 counterexample: in the load-test journey, when `createSchedule` fails
the best-effort `deleteSchedule` cleanup step is invoked zero times — not
"regardless" — because the cleanup is guarded by the created schedule's id;
the journey outcome is still recorded as failed. -/
theorem cleanup_delete_skipped_cex :
    envCreateFail.createResult = none ∧
    (loadIteration envCreateFail).invoked.count StepLabel.deleteScheduleStep = 0 ∧
    (loadIteration envCreateFail).invoked.count StepLabel.logoutStep = 1 ∧
    (loadIteration envCreateFail).scenarioFailSamples = [true] := by
  decide

/-- C2 (amended): when the create step fails in an otherwise healthy
iteration, the best-effort `deleteSchedule` cleanup is skipped (it is guarded
by the created resource's id, so there is nothing to delete), the best-effort
`logout` is still invoked, and the overall journey outcome is recorded as
failed — in both the load-test and the stress-test journey. -/
theorem cleanup_after_create_failure_amended (env : StepEnv)
    (htok : tokenOf env ≠ "") (hdp : truthyDayPlan env.scheduleInfo ≠ none)
    (hcreate : env.createResult = none) :
    (loadIteration env).invoked.count StepLabel.deleteScheduleStep = 0 ∧
    (loadIteration env).invoked.count StepLabel.logoutStep = 1 ∧
    (loadIteration env).scenarioFailSamples = [true] ∧
    (stressIteration env).invoked.count StepLabel.deleteScheduleStep = 0 ∧
    (stressIteration env).invoked.count StepLabel.logoutStep = 1 := by
  cases hd : truthyDayPlan env.scheduleInfo with
  | none => exact absurd hd hdp
  | some d =>
    refine ⟨?_, ?_, ?_, ?_, ?_⟩ <;>
      simp [loadIteration, stressIteration, htok, hd, hcreate, List.count_cons]

/-- Witness for C2 (amended): the skipped cleanup delete at the concrete
environment `envCreateFail`. -/
theorem cleanup_after_create_failure_amended_witness :
    (loadIteration envCreateFail).invoked.count StepLabel.deleteScheduleStep = 0 ∧
    (loadIteration envCreateFail).invoked.count StepLabel.logoutStep = 1 ∧
    (loadIteration envCreateFail).scenarioFailSamples = [true] ∧
    (stressIteration envCreateFail).invoked.count StepLabel.deleteScheduleStep = 0 ∧
    (stressIteration envCreateFail).invoked.count StepLabel.logoutStep = 1 :=
  cleanup_after_create_failure_amended envCreateFail (by decide) (by decide) rfl

/-- C3 counterexample: a threshold whose series has zero samples produces
exactly the same report entry (`passed := false`) as the same threshold
failing with 57 samples present — the report has no distinguishable
"no data" outcome, only the binary `result.ok`. -/
theorem threshold_no_data_indistinguishable_cex :
    (lookupMetric summaryNoData.metrics "signup_duration").count = 0 ∧
    (lookupMetric summaryWithSamples.metrics "signup_duration").count = 57 ∧
    thresholdResults summaryNoData = thresholdResults summaryWithSamples ∧
    thresholdResults summaryNoData =
      [{ name := "signup_duration: p(95)<2000", passed := false }] := by
  refine ⟨?_, ?_, rfl, rfl⟩ <;> decide

/-- C3 (amended): the report's threshold outcome is exactly the binary `ok`
flag k6 supplies — `thresholdResults` depends only on `data.thresholds` and
never consults the metric samples, so a zero-sample rule cannot be
distinguished from a samples-present one in the report. -/
theorem threshold_outcome_binary_amended (d1 d2 : SummaryData)
    (h : d1.thresholds = d2.thresholds) :
    thresholdResults d1 = thresholdResults d2 := by
  unfold thresholdResults
  rw [h]

/-- Witness for C3 (amended): the zero-sample summary and the 57-sample
summary share their threshold list, hence their reported outcomes. -/
theorem threshold_outcome_binary_amended_witness :
    thresholdResults summaryNoData = thresholdResults summaryWithSamples :=
  threshold_outcome_binary_amended summaryNoData summaryWithSamples rfl

/-- C4 counterexample: two runs that differ in their aborted-iteration data
(7 aborted vs none) render identical values in every named report section —
summary cards, response-time percentiles, thresholds, execution info,
per-API table, HTTP-phase table, checks — so no section carries an abort
count and success/fail/abort are not three distinct outcomes in the report;
the aborted data survives only inside the collapsed raw-data dump, i.e. the
raw logs the spec says should not be needed. -/
theorem report_no_abort_count_cex :
    summaryRunA.metrics ≠ summaryRunB.metrics ∧
    (lookupMetric summaryRunB.metrics "aborted_iterations").count = 7 ∧
    (generateHtmlReport summaryRunA "load-test").sections =
      (generateHtmlReport summaryRunB "load-test").sections ∧
    (generateHtmlReport summaryRunB "load-test").rawMetrics = summaryRunB.metrics := by
  refine ⟨by decide, by decide, ?_, rfl⟩
  simp [generateHtmlReport, lookupMetric, summaryRunA, summaryRunB,
    thresholdResults, customDurationRows, durationMetricNames, List.find?]

/-- C4 (amended): every generated report contains the total iteration count,
the per-rule threshold pass/fail list, the p90/p95/p99 percentile latencies,
the request success rate and the per-check pass/fail counts — but no abort
count in any rendered section: appending aborted-iteration data to the
summary leaves every named section unchanged, and the data reappears only in
the verbatim raw-metrics dump. -/
theorem report_contents_amended (d : SummaryData) (tn : String) (mv : MetricValues) :
    (generateHtmlReport d tn).sections.totalIterations =
      (lookupMetric d.metrics "iterations").count ∧
    (generateHtmlReport d tn).sections.thresholds = thresholdResults d ∧
    (generateHtmlReport d tn).sections.durationP90 =
      (lookupMetric d.metrics "http_req_duration").p90 ∧
    (generateHtmlReport d tn).sections.durationP95 =
      (lookupMetric d.metrics "http_req_duration").p95 ∧
    (generateHtmlReport d tn).sections.durationP99 =
      (lookupMetric d.metrics "http_req_duration").p99 ∧
    (generateHtmlReport d tn).sections.requestSuccessRatePct =
      (1 - (lookupMetric d.metrics "http_req_failed").rate) * 100 ∧
    (generateHtmlReport d tn).sections.checks = collectAllChecks d.root_group ∧
    (generateHtmlReport
        { d with metrics := d.metrics ++ [("aborted_iterations", mv)] } tn).sections =
      (generateHtmlReport d tn).sections ∧
    (generateHtmlReport
        { d with metrics := d.metrics ++ [("aborted_iterations", mv)] } tn).rawMetrics =
      d.metrics ++ [("aborted_iterations", mv)] := by
  refine ⟨rfl, rfl, rfl, rfl, rfl, rfl, rfl, ?_, rfl⟩
  simp [generateHtmlReport, thresholdResults, lookupMetric_append_ne,
    customDurationRows_append_aborted]
